import Mathlib

/-!
Shallow embedding of the SEPA screening engine of `coin1.py`: the
moving-average indicator calculation (`calculate_technical_indicators`),
the weighted criterion scoring (`check_sepa_conditions`), the per-asset
analyzer (`analyze_coin`) and the universe scanner (`analyze_all_coins`),
together with theorems about their behaviour.  Prices are modelled as
exact rationals; a pandas NaN cell is modelled as `none`, and any
comparison against `none` is `false`, matching IEEE comparisons with NaN.
The market-data fetch (`pyupbit.get_ohlcv`) is an external collaborator
and is passed in as a parameter.
-/

/-- One daily OHLCV candle, a row of the raw price frame.  `op` is the
"open" column (`open` is a reserved word). -/
structure Candle where
  op : ℚ
  high : ℚ
  low : ℚ
  close : ℚ
  volume : ℚ
  deriving DecidableEq

/-- Pandas `Series.rolling(window=w).mean()` over a column: the output is
aligned 1:1 with the input, entry `i` is the mean of the last `w` values up
to and including position `i`, and `none` (NaN) while fewer than `w` values
exist. -/
def rollingMean (w : ℕ) (xs : List ℚ) : List (Option ℚ) :=
  (List.range xs.length).map fun i =>
    if w ≤ i + 1 then some ((((xs.drop (i + 1 - w)).take w).sum) / w) else none

/-- The price frame after `calculate_technical_indicators`: the candles
plus the four moving-average columns the source adds
(`df["MA5"], df["MA50"], df["MA150"], df["MA200"]`). -/
structure IndicatorFrame where
  candles : List Candle
  ma5 : List (Option ℚ)
  ma50 : List (Option ℚ)
  ma150 : List (Option ℚ)
  ma200 : List (Option ℚ)
  deriving DecidableEq

/-- The frame produced by the indicator loop of
`calculate_technical_indicators`: for each window in `[5, 50, 150, 200]`
the rolling mean of the close column is attached. -/
def indicatorFrameOf (df : List Candle) : IndicatorFrame :=
  { candles := df
    ma5 := rollingMean 5 (df.map Candle.close)
    ma50 := rollingMean 50 (df.map Candle.close)
    ma150 := rollingMean 150 (df.map Candle.close)
    ma200 := rollingMean 200 (df.map Candle.close) }

/-- `calculate_technical_indicators(df)`.  The Python body never raises for
an actual frame (rolling means of a too-short column are NaN, not an
error), so the `except` branch returning `None` is reachable only when
`df` itself is `None`. -/
def calculate_technical_indicators : Option (List Candle) → Option IndicatorFrame
  | none => none
  | some df => some (indicatorFrameOf df)

/-- Comparison of two possibly-NaN cells: `a > b` is `false` whenever
either side is NaN (`none`), as with IEEE floats in the source. -/
def gtOpt : Option ℚ → Option ℚ → Bool
  | some a, some b => decide (a > b)
  | _, _ => false

/-- `df["low"].tail(252).min()`: minimum of the trailing (up to) 252 low
prices; `none` only for an empty frame. -/
def year_low_of (f : IndicatorFrame) : Option ℚ :=
  let lows := f.candles.map Candle.low
  (lows.drop (lows.length - 252)).min?

/-- The weight table built by the dict comprehension in
`check_sepa_conditions`: 0.2 for the three listed criteria, 0.15 for the
two moving-average-order criteria, 0.1 otherwise (i.e. for the MA5
criterion). -/
def sepaWeights (k : String) : ℚ :=
  if k ∈ ["현재가가 200일선 위", "200일선 상승 추세", "52주 최저가 대비 30% 이상"] then 0.2
  else if k = "150일선이 200일선 위" ∨ k = "50일선이 150/200일선 위" then 0.15
  else 0.1

/-- The local `criteria` dict of `check_sepa_conditions`, in source
insertion order.  `df.iloc[-1]` and `df.iloc[-30]` become positional
accesses at `n - 1` and `n - 30`.  Note: when `year_low = 0` the source's
float division yields `inf` (so the last criterion is true for a positive
close) while rational division by zero yields `0`; no theorem below
depends on that criterion's value at a non-positive low. -/
def sepa_criteria (f : IndicatorFrame) : List (String × Bool) :=
  let n := f.candles.length
  let latest := f.candles.getD (n - 1) ⟨0, 0, 0, 0, 0⟩
  let latestMA := fun (m : List (Option ℚ)) => m.getD (n - 1) none
  let monthAgoMA200 := f.ma200.getD (n - 30) none
  [("현재가가 200일선 위", gtOpt (some latest.close) (latestMA f.ma200)),
   ("150일선이 200일선 위", gtOpt (latestMA f.ma150) (latestMA f.ma200)),
   ("50일선이 150/200일선 위",
     gtOpt (latestMA f.ma50) (latestMA f.ma150)
       && gtOpt (latestMA f.ma50) (latestMA f.ma200)),
   ("현재가가 5일선 위", gtOpt (some latest.close) (latestMA f.ma5)),
   ("200일선 상승 추세", gtOpt (latestMA f.ma200) monthAgoMA200),
   ("52주 최저가 대비 30% 이상",
     match year_low_of f with
     | some m => decide (latest.close / m - 1 > 0.3)
     | none => false)]

/-- The local `score` of `check_sepa_conditions`:
`sum(weights[k] for k, v in criteria.items() if v)`. -/
def sepa_score (f : IndicatorFrame) : ℚ :=
  (((sepa_criteria f).filter fun kv => kv.2).map fun kv => sepaWeights kv.1).sum

/-- `check_sepa_conditions(df)`: `(False, {}, 0)` for a missing or
sub-200-row frame, otherwise `(True, criteria, score)`. -/
def check_sepa_conditions : Option IndicatorFrame → Bool × List (String × Bool) × ℚ
  | none => (false, [], 0)
  | some f =>
    if f.candles.length < 200 then (false, [], 0)
    else (true, sepa_criteria f, sepa_score f)

/-- `Series.pct_change()` with the leading NaN dropped (pandas `std`
skips it): entry `i` is `c(i+1) / c(i) - 1`. -/
def pct_change (xs : List ℚ) : List ℚ :=
  (xs.zip xs.tail).map fun p => p.2 / p.1 - 1

/-- Mean of a column (`Series.mean()`); `0` on an empty list, which no
reachable call site produces. -/
def meanQ (xs : List ℚ) : ℚ := xs.sum / xs.length

/-- Pandas sample variance (`ddof = 1`), the square of `Series.std()`. -/
def sampleVarQ (xs : List ℚ) : ℚ :=
  ((xs.map fun x => (x - meanQ xs) ^ 2).sum) / ((xs.length : ℚ) - 1)

/-- `Series.tail(k)`: the last `k` entries (all of them when fewer). -/
def tailQ (k : ℕ) (xs : List ℚ) : List ℚ := xs.drop (xs.length - k)

/-- The ad-hoc metrics dict `analyze_coin` stores under its feature key.
`returnVariance` is the square of the displayed volatility over 100 (the
source shows `pct_change().std() * 100`, whose square root is irrational
in general, so the model carries the variance); `volumeTrendUp` is the
증가/감소 flag; the two ratios are the percentages the source formats. -/
structure Features where
  returnVariance : ℚ
  volumeTrendUp : Bool
  trendStrength : ℚ
  volumeChangeRatio : ℚ
  deriving DecidableEq

/-- The per-coin result dict of `analyze_coin`: symbol (심볼), latest close
(현재가), latest volume (거래량), score (SEPA점수), criterion map
(criteria_details), chart frame (차트데이터) and the metrics (특징). -/
structure AnalysisResult where
  symbol : String
  price : ℚ
  volume : ℚ
  sepaScore : ℚ
  criteriaDetails : List (String × Bool)
  chartData : IndicatorFrame
  features : Features
  deriving DecidableEq

/-- `analyze_coin(symbol)` with the external fetch result passed in:
`none` when the fetch failed or returned an empty frame, `none` when the
eligibility flag of `check_sepa_conditions` is false, and otherwise the
assembled result dict.  All arithmetic in the body is total here, matching
the source where the `except` branch is unreachable for well-formed
frames. -/
def analyze_coin (symbol : String) : Option (List Candle) → Option AnalysisResult
  | none => none
  | some df =>
    if df.isEmpty then none
    else
      match calculate_technical_indicators (some df) with
      | none => none
      | some f =>
        let r := check_sepa_conditions (some f)
        if !r.1 then none
        else
          let n := f.candles.length
          let closes := f.candles.map Candle.close
          let vols := f.candles.map Candle.volume
          let latest := f.candles.getD (n - 1) ⟨0, 0, 0, 0, 0⟩
          -- df.iloc[-1]["MA200"]; defined (non-NaN) whenever n ≥ 200,
          -- which the eligibility flag has already guaranteed here.
          let ma200v := (f.ma200.getD (n - 1) none).getD 0
          some
            { symbol := symbol
              price := latest.close
              volume := latest.volume
              sepaScore := r.2.2
              criteriaDetails := r.2.1
              chartData := f
              features :=
                { returnVariance := sampleVarQ (pct_change closes)
                  volumeTrendUp := decide (meanQ (tailQ 7 vols) > meanQ (tailQ 30 vols))
                  trendStrength := (latest.close - ma200v) / ma200v * 100
                  volumeChangeRatio := (meanQ (tailQ 7 vols) / meanQ (tailQ 30 vols) - 1) * 100 } }

/-- The metrics dict of `get_coin_characteristics`.  The 투자의견 entry
(opinion text from `generate_investment_opinion`) is presentation-layer
commentary on these numbers and is not modelled. -/
structure Characteristics where
  returnVariance : ℚ
  volumeTrendUp : Bool
  trendStrength : ℚ
  deriving DecidableEq

/-- `get_coin_characteristics(symbol, df)`: recomputes volatility, the
volume-trend flag and the trend strength from the chart frame. -/
def get_coin_characteristics (_symbol : String) (f : IndicatorFrame) : Characteristics :=
  let n := f.candles.length
  let closes := f.candles.map Candle.close
  let vols := f.candles.map Candle.volume
  let latest := f.candles.getD (n - 1) ⟨0, 0, 0, 0, 0⟩
  let ma200v := (f.ma200.getD (n - 1) none).getD 0
  { returnVariance := sampleVarQ (pct_change closes)
    volumeTrendUp := decide (meanQ (tailQ 7 vols) > meanQ (tailQ 30 vols))
    trendStrength := (latest.close - ma200v) / ma200v * 100 }

/-- A row of the scanner's result frame: the `analyze_coin` dict with its
특징 value replaced by the `get_coin_characteristics` output, as
`analyze_all_coins` does before collecting. -/
structure ScanEntry where
  symbol : String
  price : ℚ
  volume : ℚ
  sepaScore : ℚ
  criteriaDetails : List (String × Bool)
  chartData : IndicatorFrame
  characteristics : Characteristics
  deriving DecidableEq

/-- The `sepa_coins` list collected inside `analyze_all_coins`: results
arrive in submission order (the future dict is iterated in insertion
order and each `future.result()` is awaited in turn), with `None` results
dropped and the 특징 entry replaced. -/
def sepa_coins (symbols : List String) (fetch : String → Option (List Candle)) :
    List ScanEntry :=
  symbols.filterMap fun s =>
    (analyze_coin s (fetch s)).map fun r =>
      { symbol := r.symbol
        price := r.price
        volume := r.volume
        sepaScore := r.sepaScore
        criteriaDetails := r.criteriaDetails
        chartData := r.chartData
        characteristics := get_coin_characteristics r.symbol r.chartData }

/-- `df_results.sort_values("SEPA점수", ascending=False)`: pandas
`nargsort` reverses both the values and the index array, takes an
ascending argsort of the reversed values, and reverses the resulting
indexer; at list level the outcome is `reverse (sortAsc (reverse l))`.
The double reversal cancels on tie groups, so equal-key rows keep their
original relative order whenever the underlying argsort is stable
(pandas pins this stable-descending behaviour in its own test suite;
numpy's argsort is a stable insertion sort below 17 elements, while the
default quicksort gives no stability guarantee on larger inputs).  The
ascending pass is modelled by the stable `insertionSort`. -/
def sort_values_sepa_desc (l : List ScanEntry) : List ScanEntry :=
  (List.insertionSort (fun a b => a.sepaScore ≤ b.sepaScore) l.reverse).reverse

/-- `analyze_all_coins()` with the universe and the fetch collaborator
passed in: `None` for an empty ticker list, `None` again when no coin
survives, and otherwise the collected rows sorted by descending score. -/
def analyze_all_coins (symbols : List String) (fetch : String → Option (List Candle)) :
    Option (List ScanEntry) :=
  if symbols.isEmpty then none
  else
    let sc := sepa_coins symbols fetch
    if sc.isEmpty then none else some (sort_values_sepa_desc sc)

/-- A second run of the indicator loop over an already-extended frame:
the source reassigns the four MA columns from the (unchanged) close
column of the same frame. -/
def recompute_indicators (f : IndicatorFrame) : IndicatorFrame :=
  { candles := f.candles
    ma5 := rollingMean 5 (f.candles.map Candle.close)
    ma50 := rollingMean 50 (f.candles.map Candle.close)
    ma150 := rollingMean 150 (f.candles.map Candle.close)
    ma200 := rollingMean 200 (f.candles.map Candle.close) }

/-- A flat candle used for concrete test series. -/
def constCandle : Candle := ⟨1, 1, 1, 1, 1⟩

/-- A constant price series of `n` days. -/
def dfConst (n : ℕ) : List Candle := List.replicate n constCandle

/-- Day `i` of a strictly rising price series: every column is `i + 1`. -/
def incCandle (i : ℕ) : Candle := ⟨(i : ℚ) + 1, (i : ℚ) + 1, (i : ℚ) + 1, (i : ℚ) + 1, 1⟩

/-- A strictly monotonically increasing price series of `n` days. -/
def dfInc (n : ℕ) : List Candle := (List.range n).map incCandle

/-- A candle whose recorded low is zero while the close is positive. -/
def zeroLowCandle : Candle := ⟨1, 1, 0, 1, 1⟩

/-- A 200-day series whose trailing 252-day minimum low is zero. -/
def dfZeroLow : List Candle := List.replicate 200 zeroLowCandle

/-- A fetch collaborator that returns the same 200-day flat series for
every symbol. -/
def constFetch : String → Option (List Candle) := fun _ => some (dfConst 200)

/-- A fetch collaborator that always fails. -/
def failFetch : String → Option (List Candle) := fun _ => none

/-- Sum of the length-`w` segment of `xs` starting at position `s`,
written as an indexed sum. -/
lemma sum_take_drop (xs : List ℚ) (s w : ℕ) (h : s + w ≤ xs.length) :
    ((xs.drop s).take w).sum = ∑ j ∈ Finset.range w, xs.getD (s + j) 0 := by
  induction xs generalizing s w with
  | nil =>
    simp only [List.length_nil, Nat.le_zero, Nat.add_eq_zero] at h
    simp [h.1, h.2]
  | cons a t ih =>
    cases s with
    | zero =>
      cases w with
      | zero => simp
      | succ w' =>
        have ht : 0 + w' ≤ t.length := by
          simp only [List.length_cons] at h; omega
        simp only [List.drop_zero, List.take_succ_cons, List.sum_cons]
        rw [Finset.sum_range_succ']
        simp only [List.getD_cons_succ, List.getD_cons_zero, Nat.zero_add]
        have hrec := ih 0 w' ht
        simp only [List.drop_zero, Nat.zero_add] at hrec
        rw [hrec]
        ring
    | succ s' =>
      have ht : s' + w ≤ t.length := by simp only [List.length_cons] at h; omega
      simp only [List.drop_succ_cons]
      rw [ih s' w ht]
      refine Finset.sum_congr rfl fun j _ => ?_
      have hidx : s' + 1 + j = (s' + j) + 1 := by omega
      rw [hidx, List.getD_cons_succ]

/-- The rolling-mean column has the same length as its input column. -/
lemma rollingMean_length (w : ℕ) (xs : List ℚ) : (rollingMean w xs).length = xs.length := by
  simp [rollingMean]

/-- Closed form of one cell of the rolling-mean column. -/
lemma rollingMean_getD (w : ℕ) (xs : List ℚ) (i : ℕ) (hi : i < xs.length) :
    (rollingMean w xs).getD i none =
      if w ≤ i + 1 then some ((((xs.drop (i + 1 - w)).take w).sum) / w) else none := by
  rw [rollingMean, List.getD_eq_getElem?_getD, List.getElem?_map]
  simp [List.getElem?_range, hi]

/-- A defined rolling-mean cell is the indexed windowed average. -/
lemma rollingMean_getD_of_le (w : ℕ) (xs : List ℚ) (i : ℕ) (hi : i < xs.length)
    (hw : w ≤ i + 1) :
    (rollingMean w xs).getD i none
      = some ((∑ j ∈ Finset.range w, xs.getD (i + 1 - w + j) 0) / w) := by
  rw [rollingMean_getD w xs i hi, if_pos hw, sum_take_drop xs (i + 1 - w) w (by omega)]

/-- Strictly increasing lists are strictly increasing at positions. -/
lemma getD_lt_getD_of_pairwise (xs : List ℚ) (hmono : xs.Pairwise (· < ·)) {i j : ℕ}
    (hij : i < j) (hj : j < xs.length) : xs.getD i 0 < xs.getD j 0 := by
  rw [List.getD_eq_getElem?_getD, List.getD_eq_getElem?_getD,
    List.getElem?_eq_getElem (lt_trans hij hj), List.getElem?_eq_getElem hj]
  exact List.pairwise_iff_getElem.mp hmono i j (lt_trans hij hj) hj hij

/-- Weak form of `getD_lt_getD_of_pairwise`. -/
lemma getD_le_getD_of_pairwise (xs : List ℚ) (hmono : xs.Pairwise (· < ·)) {i j : ℕ}
    (hij : i ≤ j) (hj : j < xs.length) : xs.getD i 0 ≤ xs.getD j 0 := by
  rcases Nat.lt_or_ge i j with hlt | hge
  · exact (getD_lt_getD_of_pairwise xs hmono hlt hj).le
  · have heq : i = j := le_antisymm hij hge
    simp [heq]

/-- Shifting a window to the right over a strictly increasing series
strictly increases its sum. -/
lemma windowSum_lt_of_shift (xs : List ℚ) (hmono : xs.Pairwise (· < ·))
    {s1 s2 w : ℕ} (hs : s1 < s2) (hw : 0 < w) (h : s2 + w ≤ xs.length) :
    ∑ j ∈ Finset.range w, xs.getD (s1 + j) 0
      < ∑ j ∈ Finset.range w, xs.getD (s2 + j) 0 := by
  refine Finset.sum_lt_sum_of_nonempty (Finset.nonempty_range_iff.mpr (by omega)) ?_
  intro j hj
  have hjw : j < w := Finset.mem_range.mp hj
  exact getD_lt_getD_of_pairwise xs hmono (by omega) (by omega)

/-- Over a strictly increasing series, the trailing mean over a shorter
window exceeds the trailing mean over a longer window (both ending at the
last element). -/
lemma windowMean_lt_of_nested (xs : List ℚ) (hmono : xs.Pairwise (· < ·))
    {w1 w2 : ℕ} (h1 : 0 < w1) (h12 : w1 < w2) (h2 : w2 ≤ xs.length) :
    (∑ j ∈ Finset.range w2, xs.getD (xs.length - w2 + j) 0) / w2
      < (∑ j ∈ Finset.range w1, xs.getD (xs.length - w1 + j) 0) / w1 := by
  set n := xs.length with hn
  set X := xs.getD (n - w1) 0 with hX
  set m := w2 - w1 with hm
  have hw2 : w2 = m + w1 := by omega
  have split : ∑ j ∈ Finset.range w2, xs.getD (n - w2 + j) 0
      = (∑ j ∈ Finset.range m, xs.getD (n - w2 + j) 0)
        + ∑ j ∈ Finset.range w1, xs.getD (n - w1 + j) 0 := by
    rw [hw2, Finset.sum_range_add]
    congr 1
    refine Finset.sum_congr rfl fun j _ => ?_
    congr 1
    omega
  have key1 : ∑ j ∈ Finset.range m, xs.getD (n - w2 + j) 0 < (m : ℚ) * X := by
    calc ∑ j ∈ Finset.range m, xs.getD (n - w2 + j) 0
        < ∑ _j ∈ Finset.range m, X := by
          refine Finset.sum_lt_sum_of_nonempty (Finset.nonempty_range_iff.mpr (by omega)) ?_
          intro j hj
          have hjm : j < m := Finset.mem_range.mp hj
          exact getD_lt_getD_of_pairwise xs hmono (by omega) (by omega)
      _ = (m : ℚ) * X := by simp [Finset.sum_const, nsmul_eq_mul]
  have key2 : (w1 : ℚ) * X ≤ ∑ j ∈ Finset.range w1, xs.getD (n - w1 + j) 0 := by
    calc (w1 : ℚ) * X = ∑ _j ∈ Finset.range w1, X := by simp [Finset.sum_const, nsmul_eq_mul]
      _ ≤ ∑ j ∈ Finset.range w1, xs.getD (n - w1 + j) 0 := by
          refine Finset.sum_le_sum ?_
          intro j hj
          have hjw : j < w1 := Finset.mem_range.mp hj
          exact getD_le_getD_of_pairwise xs hmono (by omega) (by omega)
  have hw1Q : (0 : ℚ) < w1 := by exact_mod_cast h1
  have hw2Q : (0 : ℚ) < w2 := by exact_mod_cast (by omega : 0 < w2)
  have hmQ : (0 : ℚ) ≤ m := by positivity
  have hc : (w2 : ℚ) = (m : ℚ) + (w1 : ℚ) := by exact_mod_cast hw2
  rw [div_lt_div_iff₀ hw2Q hw1Q, split, hc]
  nlinarith [mul_lt_mul_of_pos_right key1 hw1Q, mul_le_mul_of_nonneg_left key2 hmQ]

/-- The weight of the price-above-MA200 criterion. -/
lemma sepaWeights_price200 : sepaWeights "현재가가 200일선 위" = 0.2 := by
  with_unfolding_all rfl

/-- The weight of the MA150-above-MA200 criterion. -/
lemma sepaWeights_ma150 : sepaWeights "150일선이 200일선 위" = 0.15 := by
  with_unfolding_all rfl

/-- The weight of the MA50-above-both criterion. -/
lemma sepaWeights_ma50 : sepaWeights "50일선이 150/200일선 위" = 0.15 := by
  with_unfolding_all rfl

/-- The weight of the price-above-MA5 criterion. -/
lemma sepaWeights_ma5 : sepaWeights "현재가가 5일선 위" = 0.1 := by
  with_unfolding_all rfl

/-- The weight of the MA200-trending-up criterion. -/
lemma sepaWeights_trending : sepaWeights "200일선 상승 추세" = 0.2 := by
  with_unfolding_all rfl

/-- The weight of the 30%-above-252-day-low criterion. -/
lemma sepaWeights_yearLow : sepaWeights "52주 최저가 대비 30% 이상" = 0.2 := by
  with_unfolding_all rfl

/-- The weighted sum over the six criterion keys, written out per
truth-value combination. -/
lemma score_of_six (b1 b2 b3 b4 b5 b6 : Bool) :
    (([("현재가가 200일선 위", b1), ("150일선이 200일선 위", b2),
        ("50일선이 150/200일선 위", b3), ("현재가가 5일선 위", b4),
        ("200일선 상승 추세", b5), ("52주 최저가 대비 30% 이상", b6)].filter
          fun kv => kv.2).map fun kv => sepaWeights kv.1).sum
      = (if b1 then (0.2 : ℚ) else 0) + (if b2 then 0.15 else 0) + (if b3 then 0.15 else 0)
        + (if b4 then 0.1 else 0) + (if b5 then 0.2 else 0) + (if b6 then 0.2 else 0) := by
  cases b1 <;> cases b2 <;> cases b3 <;> cases b4 <;> cases b5 <;> cases b6 <;>
    norm_num [sepaWeights_price200, sepaWeights_ma150, sepaWeights_ma50, sepaWeights_ma5,
      sepaWeights_trending, sepaWeights_yearLow]

/-- Bounds for the weighted sum, and its value when all six criteria
hold. -/
lemma score_of_six_bounds (b1 b2 b3 b4 b5 b6 : Bool) :
    0 ≤ (if b1 then (0.2 : ℚ) else 0) + (if b2 then 0.15 else 0) + (if b3 then 0.15 else 0)
        + (if b4 then 0.1 else 0) + (if b5 then 0.2 else 0) + (if b6 then 0.2 else 0)
      ∧ (if b1 then (0.2 : ℚ) else 0) + (if b2 then 0.15 else 0) + (if b3 then 0.15 else 0)
          + (if b4 then 0.1 else 0) + (if b5 then 0.2 else 0) + (if b6 then 0.2 else 0) ≤ 1
      ∧ (b1 = true → b2 = true → b3 = true → b4 = true → b5 = true → b6 = true →
          (if b1 then (0.2 : ℚ) else 0) + (if b2 then 0.15 else 0) + (if b3 then 0.15 else 0)
            + (if b4 then 0.1 else 0) + (if b5 then 0.2 else 0) + (if b6 then 0.2 else 0) = 1) := by
  cases b1 <;> cases b2 <;> cases b3 <;> cases b4 <;> cases b5 <;> cases b6 <;> norm_num

set_option maxRecDepth 4000 in
/-- The score of a frame as the weighted sum over its criterion map. -/
lemma sepa_score_eq_weighted (f : IndicatorFrame) :
    sepa_score f
      = (if ((sepa_criteria f).getD 0 ("", false)).2 then (0.2 : ℚ) else 0)
        + (if ((sepa_criteria f).getD 1 ("", false)).2 then 0.15 else 0)
        + (if ((sepa_criteria f).getD 2 ("", false)).2 then 0.15 else 0)
        + (if ((sepa_criteria f).getD 3 ("", false)).2 then 0.1 else 0)
        + (if ((sepa_criteria f).getD 4 ("", false)).2 then 0.2 else 0)
        + (if ((sepa_criteria f).getD 5 ("", false)).2 then 0.2 else 0) :=
  score_of_six _ _ _ _ _ _

/-- The criterion map always holds exactly six entries. -/
lemma sepa_criteria_length (f : IndicatorFrame) : (sepa_criteria f).length = 6 := rfl

/-- Length of the constant test series. -/
lemma dfConst_length (n : ℕ) : (dfConst n).length = n := List.length_replicate ..

/-- An in-bounds `getD` access is a member of the list. -/
lemma getD_mem_of_lt {α : Type _} (l : List α) (i : ℕ) (d : α) (h : i < l.length) :
    l.getD i d ∈ l := by
  rw [List.getD_eq_getElem?_getD, List.getElem?_eq_getElem h]
  exact List.getElem_mem h

/-- The score lies in the unit interval, and is 1 when every entry of the
criterion map is true. -/
lemma sepa_score_bounds (f : IndicatorFrame) :
    0 ≤ sepa_score f ∧ sepa_score f ≤ 1
      ∧ ((∀ kv ∈ sepa_criteria f, kv.2 = true) → sepa_score f = 1) := by
  obtain ⟨hle, hge, hall⟩ :=
    score_of_six_bounds ((sepa_criteria f).getD 0 ("", false)).2
      ((sepa_criteria f).getD 1 ("", false)).2 ((sepa_criteria f).getD 2 ("", false)).2
      ((sepa_criteria f).getD 3 ("", false)).2 ((sepa_criteria f).getD 4 ("", false)).2
      ((sepa_criteria f).getD 5 ("", false)).2
  rw [sepa_score_eq_weighted f]
  refine ⟨hle, hge, fun h => ?_⟩
  refine hall ?_ ?_ ?_ ?_ ?_ ?_ <;>
    exact h _ (getD_mem_of_lt _ _ _ (by rw [sepa_criteria_length]; omega))

/-- Unfolding `check_sepa_conditions` on a frame of at least 200 rows. -/
lemma check_long (f : IndicatorFrame) (h : ¬ f.candles.length < 200) :
    check_sepa_conditions (some f) = (true, sepa_criteria f, sepa_score f) := by
  simp [check_sepa_conditions, h]

/-- Unfolding `check_sepa_conditions` on a frame of fewer than 200 rows. -/
lemma check_short (f : IndicatorFrame) (h : f.candles.length < 200) :
    check_sepa_conditions (some f) = (false, [], 0) := by
  simp [check_sepa_conditions, h]

/-- An asset with at least 200 days of history is always emitted by
`analyze_coin`, whatever its criteria evaluate to. -/
lemma analyze_coin_isSome_of_long (s : String) (df : List Candle) (h : 200 ≤ df.length) :
    (analyze_coin s (some df)).isSome = true := by
  rcases df with _ | ⟨c, t⟩
  · simp at h
  · have hch : check_sepa_conditions (some (indicatorFrameOf (c :: t)))
        = (true, sepa_criteria (indicatorFrameOf (c :: t)),
            sepa_score (indicatorFrameOf (c :: t))) :=
      check_long _ (by change ¬ (c :: t).length < 200; omega)
    simp [analyze_coin, calculate_technical_indicators, hch]

/-- `analyze_coin` returns `None` whenever the history is shorter than
200 days (including the empty-frame early return). -/
lemma analyze_coin_none_of_short (s : String) (df : List Candle) (h : df.length < 200) :
    analyze_coin s (some df) = none := by
  rcases df with _ | ⟨c, t⟩
  · rfl
  · have hch : check_sepa_conditions (some (indicatorFrameOf (c :: t))) = (false, [], 0) :=
      check_short _ (by change (c :: t).length < 200; omega)
    simp [analyze_coin, calculate_technical_indicators, hch]

/-- Inserting a row whose key equals `k` puts it before every kept row of
the key-`k` subsequence: the rows skipped over have strictly smaller keys
and are filtered out. -/
lemma orderedInsert_filter_eq_pos (k : ℚ) (a : ScanEntry) (s : List ScanEntry)
    (ha : a.sepaScore = k) :
    (List.orderedInsert (fun x y => x.sepaScore ≤ y.sepaScore) a s).filter
        (fun e => decide (e.sepaScore = k))
      = a :: s.filter (fun e => decide (e.sepaScore = k)) := by
  induction s with
  | nil => simp [List.orderedInsert, ha]
  | cons b l ih =>
    by_cases hr : a.sepaScore ≤ b.sepaScore
    · simp only [List.orderedInsert]
      rw [if_pos hr]
      simp [ha]
    · have hb : ¬ b.sepaScore = k := fun hbk => hr (by rw [ha, hbk])
      simp [List.orderedInsert, hr, hb, ih]

/-- Inserting a row whose key differs from `k` leaves the key-`k`
subsequence unchanged. -/
lemma orderedInsert_filter_eq_neg (k : ℚ) (a : ScanEntry) (s : List ScanEntry)
    (ha : ¬ a.sepaScore = k) :
    (List.orderedInsert (fun x y => x.sepaScore ≤ y.sepaScore) a s).filter
        (fun e => decide (e.sepaScore = k))
      = s.filter (fun e => decide (e.sepaScore = k)) := by
  induction s with
  | nil => simp [List.orderedInsert, ha]
  | cons b l ih =>
    by_cases hr : a.sepaScore ≤ b.sepaScore
    · simp [List.orderedInsert, hr, ha]
    · simp [List.orderedInsert, hr, ih, List.filter_cons]

/-- Stability of the ascending pass: sorting commutes with restricting to
any fixed key value, so equal-key rows keep their input order. -/
lemma insertionSort_filter_eq (k : ℚ) (l : List ScanEntry) :
    (List.insertionSort (fun x y => x.sepaScore ≤ y.sepaScore) l).filter
        (fun e => decide (e.sepaScore = k))
      = l.filter (fun e => decide (e.sepaScore = k)) := by
  induction l with
  | nil => rfl
  | cons a t ih =>
    by_cases ha : a.sepaScore = k
    · simp only [List.insertionSort, orderedInsert_filter_eq_pos k a _ ha, ih]
      simp [ha]
    · simp only [List.insertionSort, orderedInsert_filter_eq_neg k a _ ha, ih]
      simp [ha]

/-- Stability of `sort_values(ascending=False)`: the two reversals around
the stable ascending pass cancel on tie groups, so the key-`k`
subsequence of the output equals that of the input. -/
lemma sort_values_filter_eq (k : ℚ) (l : List ScanEntry) :
    (sort_values_sepa_desc l).filter (fun e => decide (e.sepaScore = k))
      = l.filter (fun e => decide (e.sepaScore = k)) := by
  rw [sort_values_sepa_desc, List.filter_reverse, insertionSort_filter_eq,
    List.filter_reverse, List.reverse_reverse]

/-- The descending sort produces a score column sorted by `≥`. -/
lemma sort_values_sorted (l : List ScanEntry) :
    ((sort_values_sepa_desc l).map ScanEntry.sepaScore).Sorted (· ≥ ·) := by
  haveI : IsTotal ScanEntry (fun a b => a.sepaScore ≤ b.sepaScore) :=
    ⟨fun a b => le_total _ _⟩
  haveI : IsTrans ScanEntry (fun a b => a.sepaScore ≤ b.sepaScore) :=
    ⟨fun _ _ _ h1 h2 => le_trans h1 h2⟩
  have hs := List.sorted_insertionSort
    (fun a b : ScanEntry => a.sepaScore ≤ b.sepaScore) l.reverse
  rw [sort_values_sepa_desc]
  have hrev := List.pairwise_reverse.mpr hs
  exact hrev.map _ (fun a b hab => hab)

/-- A successful scan is the descending sort of the collected rows. -/
lemma analyze_all_coins_eq_some (symbols : List String)
    (fetch : String → Option (List Candle)) (l : List ScanEntry)
    (h : analyze_all_coins symbols fetch = some l) :
    l = sort_values_sepa_desc (sepa_coins symbols fetch) := by
  simp only [analyze_all_coins] at h
  by_cases h1 : symbols.isEmpty = true
  · rw [if_pos h1] at h; cases h
  · rw [if_neg h1] at h
    by_cases h2 : (sepa_coins symbols fetch).isEmpty = true
    · rw [if_pos h2] at h; cases h
    · rw [if_neg h2] at h
      exact (Option.some.inj h).symm

/-- A comparison of two defined cells is the rational comparison. -/
lemma gtOpt_eq_true_iff (a b : ℚ) : gtOpt (some a) (some b) = true ↔ b < a := by
  simp [gtOpt]

/-- The rolling-mean cell at the final day. -/
lemma rollingMean_getD_last (w : ℕ) (xs : List ℚ) (h0 : 0 < xs.length)
    (hw : w ≤ xs.length) :
    (rollingMean w xs).getD (xs.length - 1) none
      = some ((∑ j ∈ Finset.range w, xs.getD (xs.length - w + j) 0) / w) := by
  have hcell := rollingMean_getD_of_le w xs (xs.length - 1) (by omega) (by omega)
  have hidx : xs.length - 1 + 1 - w = xs.length - w := by omega
  rw [hidx] at hcell
  exact hcell

/-- The 200-day rolling-mean cell at day `iloc[-30]`, defined exactly
when the series has at least 229 days. -/
lemma rollingMean_getD_month (xs : List ℚ) (h : 229 ≤ xs.length) :
    (rollingMean 200 xs).getD (xs.length - 30) none
      = some ((∑ j ∈ Finset.range 200, xs.getD (xs.length - 229 + j) 0) / 200) := by
  have hcell := rollingMean_getD_of_le 200 xs (xs.length - 30) (by omega) (by omega)
  have hidx : xs.length - 30 + 1 - 200 = xs.length - 229 := by omega
  rw [hidx] at hcell
  exact hcell

/-- Length of the rising test series. -/
lemma dfInc_length (n : ℕ) : (dfInc n).length = n := by
  rw [dfInc, List.length_map, List.length_range]

/-- Length of the zero-low test series. -/
lemma dfZeroLow_length : dfZeroLow.length = 200 := List.length_replicate ..

/-- The close column of the rising test series is strictly increasing. -/
lemma dfInc_close_pairwise (n : ℕ) : ((dfInc n).map Candle.close).Pairwise (· < ·) := by
  rw [dfInc, List.map_map]
  refine (List.pairwise_lt_range n).map (Candle.close ∘ incCandle) ?_
  intro a b hab
  show (a : ℚ) + 1 < (b : ℚ) + 1
  have : (a : ℚ) < b := by exact_mod_cast hab
  linarith

/-- Folding `min` over a constant list is the constant. -/
lemma foldl_min_replicate (n : ℕ) (x : ℚ) : (List.replicate n x).foldl min x = x := by
  induction n with
  | zero => rfl
  | succ n ih => simp [List.replicate_succ, min_self, ih]

/-- The minimum of a nonempty constant list is the constant. -/
lemma min?_replicate_pos (n : ℕ) (x : ℚ) (h : 0 < n) :
    (List.replicate n x).min? = some x := by
  obtain ⟨m, rfl⟩ : ∃ m, n = m + 1 := ⟨n - 1, by omega⟩
  rw [List.replicate_succ]
  show some ((List.replicate m x).foldl min x) = some x
  rw [foldl_min_replicate]

/-- The trailing 252-day minimum low of the zero-low series is zero. -/
lemma year_low_dfZeroLow : year_low_of (indicatorFrameOf dfZeroLow) = some 0 := by
  simp only [year_low_of, indicatorFrameOf]
  rw [show dfZeroLow.map Candle.low = List.replicate 200 (0 : ℚ) from by
    rw [dfZeroLow, List.map_replicate]; rfl]
  have hlen : (List.replicate 200 (0 : ℚ)).length - 252 = 0 := by
    rw [List.length_replicate]
  rw [hlen, List.drop_zero, min?_replicate_pos 200 0 (by norm_num)]

/-- An emitted analyzer result carries the requested symbol and the
score computed by the evaluator. -/
lemma analyze_coin_proj (s : String) (df : List Candle) (r : AnalysisResult)
    (hr : analyze_coin s (some df) = some r) :
    r.symbol = s ∧ r.sepaScore = sepa_score (indicatorFrameOf df) := by
  rcases df with _ | ⟨c, t⟩
  · cases hr
  · by_cases hlen : (c :: t).length < 200
    · rw [analyze_coin_none_of_short s _ hlen] at hr; cases hr
    · have hch := check_long (indicatorFrameOf (c :: t))
        (by change ¬ (c :: t).length < 200; exact hlen)
      simp [analyze_coin, calculate_technical_indicators, hch] at hr
      subst hr
      exact ⟨rfl, rfl⟩

/-- The scanner on a nonempty universe with at least one surviving asset
returns the sorted collection. -/
lemma analyze_all_coins_of_ne (symbols : List String)
    (fetch : String → Option (List Candle)) (h1 : symbols ≠ [])
    (h2 : sepa_coins symbols fetch ≠ []) :
    analyze_all_coins symbols fetch
      = some (sort_values_sepa_desc (sepa_coins symbols fetch)) := by
  simp only [analyze_all_coins]
  rw [if_neg (by simpa using h1), if_neg (by simpa using h2)]

/-- C1: for every evaluable price series (length at least 200 after
indicator computation), `check_sepa_conditions` returns the composite
score as exactly the sum of the weights of the true criteria, with the
fixed weight table (0.20 for price-above-MA200, MA200-trending-up and
30%-above-252-day-low, 0.15 for MA150-above-MA200 and MA50-above-both,
0.10 for price-above-MA5); hence the score is in [0, 1] and equals 1
when all six criteria are true. -/
theorem sepa_score_weighted_sum_unit_interval (df : List Candle) (h : 200 ≤ df.length) :
    check_sepa_conditions (calculate_technical_indicators (some df))
        = (true, sepa_criteria (indicatorFrameOf df), sepa_score (indicatorFrameOf df))
      ∧ sepaWeights "현재가가 200일선 위" = 0.2
      ∧ sepaWeights "200일선 상승 추세" = 0.2
      ∧ sepaWeights "52주 최저가 대비 30% 이상" = 0.2
      ∧ sepaWeights "150일선이 200일선 위" = 0.15
      ∧ sepaWeights "50일선이 150/200일선 위" = 0.15
      ∧ sepaWeights "현재가가 5일선 위" = 0.1
      ∧ sepa_score (indicatorFrameOf df)
          = (if ((sepa_criteria (indicatorFrameOf df)).getD 0 ("", false)).2 then (0.2 : ℚ) else 0)
            + (if ((sepa_criteria (indicatorFrameOf df)).getD 1 ("", false)).2 then 0.15 else 0)
            + (if ((sepa_criteria (indicatorFrameOf df)).getD 2 ("", false)).2 then 0.15 else 0)
            + (if ((sepa_criteria (indicatorFrameOf df)).getD 3 ("", false)).2 then 0.1 else 0)
            + (if ((sepa_criteria (indicatorFrameOf df)).getD 4 ("", false)).2 then 0.2 else 0)
            + (if ((sepa_criteria (indicatorFrameOf df)).getD 5 ("", false)).2 then 0.2 else 0)
      ∧ 0 ≤ sepa_score (indicatorFrameOf df) ∧ sepa_score (indicatorFrameOf df) ≤ 1
      ∧ ((∀ kv ∈ sepa_criteria (indicatorFrameOf df), kv.2 = true)
          → sepa_score (indicatorFrameOf df) = 1) := by
  obtain ⟨hb0, hb1, hb2⟩ := sepa_score_bounds (indicatorFrameOf df)
  exact ⟨check_long _ (by change ¬ df.length < 200; omega), sepaWeights_price200,
    sepaWeights_trending, sepaWeights_yearLow, sepaWeights_ma150, sepaWeights_ma50,
    sepaWeights_ma5, sepa_score_eq_weighted _, hb0, hb1, hb2⟩

/-- Witness for the composite-score theorem at the 200-day constant
series. -/
theorem sepa_score_weighted_sum_unit_interval_witness :
    200 ≤ (dfConst 200).length ∧ 0 ≤ sepa_score (indicatorFrameOf (dfConst 200)) :=
  ⟨by simp [dfConst_length], (sepa_score_weighted_sum_unit_interval (dfConst 200)
      (by simp [dfConst_length])).2.2.2.2.2.2.2.2.1⟩

/-- C2: for each window w of the calculator (w ∈ {5, 50, 150, 200}), the
produced column is aligned 1:1 with the input, its value at day i is the
arithmetic mean of the close prices over days [i − w + 1, i] whenever at
least w days up to and including day i exist, and it is undefined
(`none`, not zero) at each of the first w − 1 days; the four columns the
calculator attaches are exactly these series. -/
theorem rolling_mean_is_windowed_average (w : ℕ) (hw : w ∈ [5, 50, 150, 200])
    (xs : List ℚ) :
    (rollingMean w xs).length = xs.length
      ∧ (∀ i, i < xs.length →
          (rollingMean w xs).getD i none
            = if w ≤ i + 1
              then some ((∑ j ∈ Finset.range w, xs.getD (i + 1 - w + j) 0) / w)
              else none)
      ∧ ∀ df : List Candle,
          [(indicatorFrameOf df).ma5, (indicatorFrameOf df).ma50,
           (indicatorFrameOf df).ma150, (indicatorFrameOf df).ma200]
            = [5, 50, 150, 200].map fun v => rollingMean v (df.map Candle.close) := by
  refine ⟨rollingMean_length w xs, fun i hi => ?_, fun df => rfl⟩
  by_cases hcase : w ≤ i + 1
  · rw [rollingMean_getD_of_le w xs i hi hcase, if_pos hcase]
  · rw [rollingMean_getD w xs i hi, if_neg hcase, if_neg hcase]

/-- Witness for the rolling-mean theorem at window 5 on a six-day
series. -/
theorem rolling_mean_is_windowed_average_witness :
    5 ∈ [5, 50, 150, 200]
      ∧ (rollingMean 5 ([1, 2, 3, 4, 5, 6] : List ℚ)).length
          = ([1, 2, 3, 4, 5, 6] : List ℚ).length :=
  ⟨by decide, (rolling_mean_is_windowed_average 5 (by decide) [1, 2, 3, 4, 5, 6]).1⟩

/-- C9: the indicator calculation is a pure value-level transform: the
OHLCV rows of the produced frame are exactly the input rows (the price
series is unchanged), and running the indicator assignment again over the
produced frame leaves it unchanged, so repeated runs yield identical
indicator values. -/
theorem indicator_calculation_pure (df : List Candle) :
    calculate_technical_indicators (some df) = some (indicatorFrameOf df)
      ∧ (indicatorFrameOf df).candles = df
      ∧ recompute_indicators (indicatorFrameOf df) = indicatorFrameOf df :=
  ⟨rfl, rfl, rfl⟩

/-- C10: the eligibility flag of `check_sepa_conditions` depends only on
the input length — a missing frame or one shorter than 200 rows yields
exactly `(false, {}, 0)`, while any frame of at least 200 rows yields
`(true, criteria, score)` with the full six-entry criterion map, and the
asset is then emitted by `analyze_coin` however few criteria hold. -/
theorem eligibility_depends_only_on_length :
    check_sepa_conditions none = (false, [], 0)
      ∧ ∀ df : List Candle,
          (df.length < 200 →
            check_sepa_conditions (calculate_technical_indicators (some df))
              = (false, [], 0))
          ∧ (200 ≤ df.length →
              check_sepa_conditions (calculate_technical_indicators (some df))
                  = (true, sepa_criteria (indicatorFrameOf df),
                      sepa_score (indicatorFrameOf df))
                ∧ (sepa_criteria (indicatorFrameOf df)).length = 6
                ∧ ∀ s, (analyze_coin s (some df)).isSome = true) := by
  refine ⟨rfl, fun df => ⟨fun h => ?_, fun h => ⟨?_, sepa_criteria_length _,
    fun s => analyze_coin_isSome_of_long s df h⟩⟩⟩
  · exact check_short _ (by change df.length < 200; omega)
  · exact check_long _ (by change ¬ df.length < 200; omega)

/-- Witness for the eligibility theorem at a 199-day and a 200-day
concrete series. -/
theorem eligibility_depends_only_on_length_witness :
    ((dfConst 199).length < 200
        ∧ check_sepa_conditions (calculate_technical_indicators (some (dfConst 199)))
            = (false, [], 0))
      ∧ (200 ≤ (dfConst 200).length
        ∧ (analyze_coin "KRW-BTC" (some (dfConst 200))).isSome = true) :=
  ⟨⟨by simp [dfConst_length],
      (eligibility_depends_only_on_length.2 (dfConst 199)).1 (by simp [dfConst_length])⟩,
   ⟨by simp [dfConst_length],
      ((eligibility_depends_only_on_length.2 (dfConst 200)).2
        (by simp [dfConst_length])).2.2 "KRW-BTC"⟩⟩

/-- C4 counterexample: on a concrete 199-day series the indicator
calculation does not fail — it returns a frame (short windows are merely
NaN cells); no error value arises at this stage, contrary to the claim
that the indicator calculation itself fails for sub-200-day input. -/
theorem short_series_calc_succeeds_cx :
    (calculate_technical_indicators (some (dfConst 199))).isSome = true := rfl

/-- C4 amended: for every sub-200-day series the indicator calculation
succeeds (no failure is raised; short windows are simply undefined), the
rejection happens in the score evaluation, which reports the
not-evaluable triple `(false, {}, 0)`, and the analyzer returns absent
(`None`) and never raises. -/
theorem short_series_not_evaluable (df : List Candle) (h : df.length < 200) :
    (calculate_technical_indicators (some df)).isSome = true
      ∧ check_sepa_conditions (calculate_technical_indicators (some df)) = (false, [], 0)
      ∧ ∀ s, analyze_coin s (some df) = none :=
  ⟨rfl, check_short _ (by change df.length < 200; omega),
    fun s => analyze_coin_none_of_short s df h⟩

/-- Witness for the sub-200-day theorem at the 199-day series. -/
theorem short_series_not_evaluable_witness :
    (dfConst 199).length < 200 ∧ analyze_coin "KRW-BTC" (some (dfConst 199)) = none :=
  ⟨by simp [dfConst_length],
    (short_series_not_evaluable (dfConst 199) (by simp [dfConst_length])).2.2 "KRW-BTC"⟩

/-- C6 counterexample: the analyzer's outcome for a failed fetch equals
its outcome for present-but-ineligible data — both are `None` — so the
caller cannot distinguish the two failure classes; no typed FetchError
value exists in the result type. -/
theorem fetch_failure_indistinguishable_cx :
    analyze_coin "KRW-BTC" none = analyze_coin "KRW-BTC" (some (dfConst 199)) := by
  rw [analyze_coin_none_of_short "KRW-BTC" (dfConst 199) (by simp [dfConst_length])]
  rfl

/-- C6 amended: `analyze_coin` collapses both failure classes to the same
absent value — a failed fetch returns `None`, present-but-too-short
(ineligible) data also returns `None`, and the two outcomes are equal,
hence not distinguishable by the caller. -/
theorem analyzer_failure_classes_collapse (s : String) (df : List Candle)
    (h : df.length < 200) :
    analyze_coin s none = none ∧ analyze_coin s (some df) = none
      ∧ analyze_coin s none = analyze_coin s (some df) := by
  have h2 := analyze_coin_none_of_short s df h
  exact ⟨rfl, h2, by rw [h2]; rfl⟩

/-- Witness for the failure-collapse theorem at a concrete symbol and
series. -/
theorem analyzer_failure_classes_collapse_witness :
    (dfConst 199).length < 200
      ∧ analyze_coin "KRW-XRP" none = analyze_coin "KRW-XRP" (some (dfConst 199)) :=
  ⟨by simp [dfConst_length],
    (analyzer_failure_classes_collapse "KRW-XRP" (dfConst 199)
      (by simp [dfConst_length])).2.2⟩

/-- C8 counterexample: a concrete 200-day series whose trailing 252-day
low is zero is not excluded upstream — the analyzer still evaluates and
emits it, so no rejection happens before the ratio criterion is
computed. -/
theorem degenerate_low_emitted_cx :
    year_low_of (indicatorFrameOf dfZeroLow) = some 0
      ∧ (analyze_coin "KRW-BTC" (some dfZeroLow)).isSome = true := by
  constructor
  · exact year_low_dfZeroLow
  · exact analyze_coin_isSome_of_long "KRW-BTC" dfZeroLow (by simp [dfZeroLow_length])

/-- C8 amended: there is no upstream rejection of a non-positive trailing
low — an asset of at least 200 days whose recorded 252-day minimum low is
zero or negative is still marked eligible and emitted by the analyzer,
and the scan does not crash (in the source the ratio is computed with
float semantics where dividing by a zero low yields inf, not an
exception; here the evaluation is total). -/
theorem degenerate_low_not_rejected (s : String) (df : List Candle)
    (h : 200 ≤ df.length) (m : ℚ) (hm : year_low_of (indicatorFrameOf df) = some m)
    (hm0 : m ≤ 0) :
    (check_sepa_conditions (calculate_technical_indicators (some df))).1 = true
      ∧ (analyze_coin s (some df)).isSome = true := by
  refine ⟨?_, analyze_coin_isSome_of_long s df h⟩
  rw [show calculate_technical_indicators (some df) = some (indicatorFrameOf df) from rfl,
    check_long _ (by change ¬ df.length < 200; omega)]

/-- Witness for the degenerate-low theorem at the zero-low series. -/
theorem degenerate_low_not_rejected_witness :
    200 ≤ dfZeroLow.length ∧ (analyze_coin "KRW-ETH" (some dfZeroLow)).isSome = true :=
  ⟨by simp [dfZeroLow_length],
    (degenerate_low_not_rejected "KRW-ETH" dfZeroLow (by simp [dfZeroLow_length])
      0 year_low_dfZeroLow (le_refl 0)).2⟩

/-- C5 counterexample: for the empty universe the scanner returns `None`
— a distinguished no-result value — not a well-formed empty ranked
list. -/
theorem empty_universe_returns_none_cx :
    analyze_all_coins [] failFetch = none
      ∧ analyze_all_coins [] failFetch ≠ some [] := by
  refine ⟨rfl, fun h => ?_⟩
  rw [show analyze_all_coins [] failFetch = none from rfl] at h
  exact Option.noConfusion h

/-- C5 amended: the scanner never raises, but for the empty universe and
for every universe in which all assets fail or are ineligible it returns
`None` — a distinguished no-result value — rather than an empty ranked
list. -/
theorem scan_returns_none_when_no_results (symbols : List String)
    (fetch : String → Option (List Candle))
    (h : symbols = [] ∨ ∀ s ∈ symbols, analyze_coin s (fetch s) = none) :
    analyze_all_coins symbols fetch = none := by
  rcases h with h | h
  · subst h; rfl
  · have hsc : sepa_coins symbols fetch = [] := by
      rw [sepa_coins, List.filterMap_eq_nil_iff]
      intro s hs
      rw [h s hs]
      rfl
    by_cases h1 : symbols.isEmpty = true
    · simp [analyze_all_coins, h1]
    · simp [analyze_all_coins, h1, hsc]

/-- Witness for the no-results theorem at a one-symbol universe whose
fetch always fails. -/
theorem scan_returns_none_when_no_results_witness :
    (["KRW-BTC"] = ([] : List String)
        ∨ ∀ s ∈ ["KRW-BTC"], analyze_coin s (failFetch s) = none)
      ∧ analyze_all_coins ["KRW-BTC"] failFetch = none :=
  ⟨Or.inr fun s _ => rfl,
    scan_returns_none_when_no_results ["KRW-BTC"] failFetch (Or.inr fun s _ => rfl)⟩

/-- C3: a successful scan outcome is sorted in descending order of
composite score, and equal-score rows keep the relative order in which
they were collected from the universe enumeration: for every score value
`k`, the subsequence of score-`k` rows of the outcome equals the
score-`k` subsequence of the collected rows, so any two tied results
appear in their original enumeration order (pandas reverses values and
index before the stable ascending argsort and reverses the indexer
after, cancelling on tie groups). -/
theorem scan_sorted_desc_ties_stable (symbols : List String)
    (fetch : String → Option (List Candle)) (l : List ScanEntry)
    (h : analyze_all_coins symbols fetch = some l) :
    (l.map ScanEntry.sepaScore).Sorted (· ≥ ·)
      ∧ ∀ k : ℚ, l.filter (fun e => decide (e.sepaScore = k))
          = (sepa_coins symbols fetch).filter (fun e => decide (e.sepaScore = k)) := by
  obtain rfl : l = sort_values_sepa_desc (sepa_coins symbols fetch) :=
    analyze_all_coins_eq_some symbols fetch l h
  exact ⟨sort_values_sorted _, fun k => sort_values_filter_eq k _⟩

/-- Witness for the scan-order theorem at a concrete two-asset scan. -/
theorem scan_sorted_desc_ties_stable_witness :
    analyze_all_coins ["A", "B"] constFetch
        = some (sort_values_sepa_desc (sepa_coins ["A", "B"] constFetch))
      ∧ ((sort_values_sepa_desc (sepa_coins ["A", "B"] constFetch)).map
          ScanEntry.sepaScore).Sorted (· ≥ ·) := by
  have hlen : 200 ≤ (dfConst 200).length := by simp [dfConst_length]
  obtain ⟨rA, hA⟩ :=
    Option.isSome_iff_exists.mp (analyze_coin_isSome_of_long "A" (dfConst 200) hlen)
  have hne : sepa_coins ["A", "B"] constFetch ≠ [] := by
    simp [sepa_coins, constFetch, hA]
  have hscan := analyze_all_coins_of_ne ["A", "B"] constFetch (by simp) hne
  exact ⟨hscan, (scan_sorted_desc_ties_stable ["A", "B"] constFetch _ hscan).1⟩

set_option maxRecDepth 20000 in
/-- C7 counterexample: a strictly monotonically increasing series of
exactly 200 days does NOT satisfy the 200-day-trending-up criterion —
`df.iloc[-30]["MA200"]` is NaN until the series has 229 days, and a NaN
comparison evaluates false. -/
theorem strict_rise_200_trending_false_cx :
    ((dfInc 200).map Candle.close).Pairwise (· < ·)
      ∧ 200 ≤ (dfInc 200).length
      ∧ ((sepa_criteria (indicatorFrameOf (dfInc 200))).getD 4 ("", true)).2 = false := by
  refine ⟨dfInc_close_pairwise 200, by simp [dfInc_length], ?_⟩
  rfl

/-- C7 amended: for a strictly monotonically increasing close series the
claim holds as soon as the day-30-prior MA200 reference exists, i.e. for
length ≥ 229 (for lengths 200..228 that reference cell is NaN and the
criterion is false — see the counterexample): the 200-day-trending-up
criterion is true, and MA5 > MA50 > MA150 > MA200 at the final day. -/
theorem strict_rise_trending_and_ma_chain (df : List Candle) (hlen : 229 ≤ df.length)
    (hmono : (df.map Candle.close).Pairwise (· < ·)) :
    ((sepa_criteria (indicatorFrameOf df)).getD 4 ("", false)).2 = true
      ∧ gtOpt ((indicatorFrameOf df).ma5.getD (df.length - 1) none)
          ((indicatorFrameOf df).ma50.getD (df.length - 1) none) = true
      ∧ gtOpt ((indicatorFrameOf df).ma50.getD (df.length - 1) none)
          ((indicatorFrameOf df).ma150.getD (df.length - 1) none) = true
      ∧ gtOpt ((indicatorFrameOf df).ma150.getD (df.length - 1) none)
          ((indicatorFrameOf df).ma200.getD (df.length - 1) none) = true := by
  have hxlen : (df.map Candle.close).length = df.length := List.length_map ..
  refine ⟨?_, ?_, ?_, ?_⟩
  · show gtOpt ((rollingMean 200 (df.map Candle.close)).getD (df.length - 1) none)
        ((rollingMean 200 (df.map Candle.close)).getD (df.length - 30) none) = true
    rw [← hxlen, rollingMean_getD_last 200 (df.map Candle.close) (by omega) (by omega),
      rollingMean_getD_month (df.map Candle.close) (by omega), gtOpt_eq_true_iff]
    have hsum := @windowSum_lt_of_shift (df.map Candle.close) hmono
      ((df.map Candle.close).length - 229) ((df.map Candle.close).length - 200) 200
      (by omega) (by omega) (by omega)
    gcongr
  · show gtOpt ((rollingMean 5 (df.map Candle.close)).getD (df.length - 1) none)
        ((rollingMean 50 (df.map Candle.close)).getD (df.length - 1) none) = true
    rw [← hxlen, rollingMean_getD_last 5 (df.map Candle.close) (by omega) (by omega),
      rollingMean_getD_last 50 (df.map Candle.close) (by omega) (by omega),
      gtOpt_eq_true_iff]
    exact @windowMean_lt_of_nested (df.map Candle.close) hmono 5 50
      (by omega) (by omega) (by omega)
  · show gtOpt ((rollingMean 50 (df.map Candle.close)).getD (df.length - 1) none)
        ((rollingMean 150 (df.map Candle.close)).getD (df.length - 1) none) = true
    rw [← hxlen, rollingMean_getD_last 50 (df.map Candle.close) (by omega) (by omega),
      rollingMean_getD_last 150 (df.map Candle.close) (by omega) (by omega),
      gtOpt_eq_true_iff]
    exact @windowMean_lt_of_nested (df.map Candle.close) hmono 50 150
      (by omega) (by omega) (by omega)
  · show gtOpt ((rollingMean 150 (df.map Candle.close)).getD (df.length - 1) none)
        ((rollingMean 200 (df.map Candle.close)).getD (df.length - 1) none) = true
    rw [← hxlen, rollingMean_getD_last 150 (df.map Candle.close) (by omega) (by omega),
      rollingMean_getD_last 200 (df.map Candle.close) (by omega) (by omega),
      gtOpt_eq_true_iff]
    exact @windowMean_lt_of_nested (df.map Candle.close) hmono 150 200
      (by omega) (by omega) (by omega)

/-- Witness for the strict-rise theorem at the 229-day rising series. -/
theorem strict_rise_trending_and_ma_chain_witness :
    229 ≤ (dfInc 229).length
      ∧ ((sepa_criteria (indicatorFrameOf (dfInc 229))).getD 4 ("", false)).2 = true :=
  ⟨by simp [dfInc_length],
    (strict_rise_trending_and_ma_chain (dfInc 229) (by simp [dfInc_length])
      (dfInc_close_pairwise 229)).1⟩
